import Mathlib

/-!
# Verification of the opi-evpn-bridge EVPN resource lifecycle manager

A shallow embedding of the VRF / LogicalBridge / BridgePort gRPC handlers
(`CreateVrf`, `DeleteVrf`, `UpdateVrf`, `GetVrf`, `ListVrfs`, and the
LogicalBridge analogues, plus `validateCreateBridgePortRequest`) of the
`opi-evpn-bridge` Go repository, together with theorems about idempotent
creation, derived routing-table values, delete/update error handling,
pagination, and status handling.

Go maps become association lists (`List Vrf` keyed by `name`), pointer
protobuf messages become structures with `Option` for nilable fields,
and the external collaborators (validators from other files, netlink and
FRR adapters, random MAC generation, uuid minting) become a deterministic
oracle `Env` passed to every operation.  Each operation returns its gRPC
result, the new server state, and the list of backend adapter calls it
performed, so that "no backend calls on this path" is a provable statement.
-/

/-- gRPC status codes used by the handlers. -/
inductive GrpcCode where
  | InvalidArgument
  | NotFound
  | Internal
deriving DecidableEq, Repr

/-- A gRPC error: a status code plus a message, as built by `status.Errorf`. -/
structure GrpcError where
  code : GrpcCode
  msg : String
deriving DecidableEq, Repr

instance {ε α : Type} [DecidableEq ε] [DecidableEq α] : DecidableEq (Except ε α) := fun x y =>
  match x, y with
  | .ok a, .ok b =>
    if h : a = b then isTrue (h ▸ rfl) else isFalse (fun he => h (Except.ok.inj he))
  | .error a, .error b =>
    if h : a = b then isTrue (h ▸ rfl) else isFalse (fun he => h (Except.error.inj he))
  | .ok _, .error _ => isFalse (fun he => Except.noConfusion he)
  | .error _, .ok _ => isFalse (fun he => Except.noConfusion he)

/-- `pb.VrfStatus`: `LocalAs int32`, `RoutingTable uint32`, `Rmac []byte`
(the Go zero values are `0`, `0`, `nil`; `nil` is modelled as `[]`). -/
structure VrfStatus where
  localAs : Nat
  routingTable : Nat
  rmac : List Nat
deriving DecidableEq, Repr

/-- `pb.VrfSpec`: `Vni *uint32` (optional 24-bit VXLAN id). -/
structure VrfSpec where
  vni : Option Nat
deriving DecidableEq, Repr

/-- `pb.Vrf`: resource name, spec, and a nilable status pointer. -/
structure Vrf where
  name : String
  spec : VrfSpec
  status : Option VrfStatus
deriving DecidableEq, Repr

/-- `pb.LBOperStatus` operational-status enum. -/
inductive LBOperStatus where
  | UNSPECIFIED
  | UP
  | DOWN
deriving DecidableEq, Repr

/-- `pb.LogicalBridgeStatus`: only the operational status. -/
structure LogicalBridgeStatus where
  operStatus : LBOperStatus
deriving DecidableEq, Repr

/-- `pb.LogicalBridgeSpec`: `VlanId uint32`, `Vni *uint32`. -/
structure LogicalBridgeSpec where
  vlanId : Nat
  vni : Option Nat
deriving DecidableEq, Repr

/-- `pb.LogicalBridge`: resource name, spec, and a nilable status pointer. -/
structure LogicalBridge where
  name : String
  spec : LogicalBridgeSpec
  status : Option LogicalBridgeStatus
deriving DecidableEq, Repr

/-- `pb.BridgePortType` enum (`ACCESS`, `TRUNK`, plus the unspecified value). -/
inductive BridgePortType where
  | UNSPECIFIED
  | ACCESS
  | TRUNK
deriving DecidableEq, Repr

/-- `pb.BridgePortSpec`: port type and the referenced logical bridges. -/
structure BridgePortSpec where
  ptype : BridgePortType
  logicalBridges : List String
deriving DecidableEq, Repr

/-- `pb.BridgePort`. -/
structure BridgePort where
  name : String
  spec : BridgePortSpec
deriving DecidableEq, Repr

/-- `pb.CreateVrfRequest`: optional caller-supplied id and the desired object. -/
structure CreateVrfRequest where
  vrfId : String
  vrf : Vrf
deriving DecidableEq, Repr

/-- `pb.DeleteVrfRequest`. -/
structure DeleteVrfRequest where
  name : String
  allowMissing : Bool
deriving DecidableEq, Repr

/-- `pb.UpdateVrfRequest`. -/
structure UpdateVrfRequest where
  vrf : Vrf
deriving DecidableEq, Repr

/-- `pb.GetVrfRequest`. -/
structure GetVrfRequest where
  name : String
deriving DecidableEq, Repr

/-- `pb.ListVrfsRequest`: page size and resume token. -/
structure ListVrfsRequest where
  pageSize : Nat
  pageToken : String
deriving DecidableEq, Repr

/-- `pb.ListVrfsResponse`. -/
structure ListVrfsResponse where
  vrfs : List Vrf
  nextPageToken : String
deriving DecidableEq, Repr

/-- `pb.CreateLogicalBridgeRequest`. -/
structure CreateLogicalBridgeRequest where
  logicalBridgeId : String
  logicalBridge : LogicalBridge
deriving DecidableEq, Repr

/-- `pb.DeleteLogicalBridgeRequest`. -/
structure DeleteLogicalBridgeRequest where
  name : String
  allowMissing : Bool
deriving DecidableEq, Repr

/-- `pb.UpdateLogicalBridgeRequest`. -/
structure UpdateLogicalBridgeRequest where
  logicalBridge : LogicalBridge
deriving DecidableEq, Repr

/-- `pb.GetLogicalBridgeRequest`. -/
structure GetLogicalBridgeRequest where
  name : String
deriving DecidableEq, Repr

/-- `pb.ListLogicalBridgesRequest`. -/
structure ListLogicalBridgesRequest where
  pageSize : Nat
  pageToken : String
deriving DecidableEq, Repr

/-- `pb.ListLogicalBridgesResponse`. -/
structure ListLogicalBridgesResponse where
  logicalBridges : List LogicalBridge
  nextPageToken : String
deriving DecidableEq, Repr

/-- `pb.CreateBridgePortRequest`. -/
structure CreateBridgePortRequest where
  bridgePortId : String
  bridgePort : BridgePort
deriving DecidableEq, Repr

/-- The `Server` state: the resource stores (`s.Vrfs`, `s.Bridges`, Go maps
keyed by full resource name, modelled as lists looked up by `name`) and the
pagination token table `s.Pagination`. -/
structure Server where
  vrfs : List Vrf
  bridges : List LogicalBridge
  pagination : List (String × Nat)
deriving DecidableEq, Repr

/-- One call made to an external backend adapter (netlink or FRR).
Operations return the list of such calls they performed. -/
inductive BackendCall where
  | netlinkCreateVrf
  | frrCreateVrf
  | netlinkDeleteVrf
  | frrDeleteVrf
  | netlinkCreateLogicalBridge
  | netlinkDeleteLogicalBridge
  | linkByName (link : String)
  | linkModify (link : String)
deriving DecidableEq, Repr

/-- Deterministic oracle for everything outside the lifecycle manager:
the per-operation validators (defined in other files of the repository),
`resourceid.NewSystemGenerated`, `generateRandMAC`, `uuid.New`,
`fieldbehavior.ValidateRequiredFields`, `resourceid.ValidateUserSettable`,
and the outcomes of the netlink / FRR adapter calls.  `none` means the
call succeeds, `some e` that it fails with error `e`; `linkFound s = true`
means `nLink.LinkByName` finds link `s`. -/
structure Env where
  sysGenId : String
  randMac : Except GrpcError (List Nat)
  newToken : String
  validateCreateVrf : CreateVrfRequest → Option GrpcError
  validateDeleteVrf : DeleteVrfRequest → Option GrpcError
  validateUpdateVrf : UpdateVrfRequest → Option GrpcError
  validateGetVrf : GetVrfRequest → Option GrpcError
  validateCreateLB : CreateLogicalBridgeRequest → Option GrpcError
  validateDeleteLB : DeleteLogicalBridgeRequest → Option GrpcError
  validateUpdateLB : UpdateLogicalBridgeRequest → Option GrpcError
  validateGetLB : GetLogicalBridgeRequest → Option GrpcError
  requiredFieldsListVrfs : Option GrpcError
  requiredFieldsListLBs : Option GrpcError
  requiredFieldsBP : Option GrpcError
  validateUserSettable : String → Option GrpcError
  netlinkCreateVrfRes : Option GrpcError
  frrCreateVrfRes : Option GrpcError
  netlinkDeleteVrfRes : Option GrpcError
  frrDeleteVrfRes : Option GrpcError
  netlinkCreateLBRes : Option GrpcError
  netlinkDeleteLBRes : Option GrpcError
  linkFound : String → Bool
  linkModifyRes : String → Option GrpcError

/-- Modelled from the spec: `resourceIDToFullName` is not part of the
excerpt; per the spec the IdentifierAssigner builds the canonical full
resource name `"<collection>/<id>"`. -/
def resourceIDToFullName (collection resID : String) : String :=
  collection ++ "/" ++ resID

/-- Helper for `pathBase`: scan the characters, keeping the segment after
the most recent `/` (accumulated in reverse). -/
def pathBaseAux : List Char → List Char → List Char
  | acc, [] => acc.reverse
  | _, '/' :: cs => pathBaseAux [] cs
  | acc, c :: cs => pathBaseAux (c :: acc) cs

/-- Go `path.Base` restricted to the names used here
(`"<collection>/<id>"`, non-empty, no trailing slash): the part after the
last `/`. -/
def pathBase (s : String) : String :=
  ⟨pathBaseAux [] s.data⟩

/-- Map lookup `s.Vrfs[name]`. -/
def vrfLookup (l : List Vrf) (n : String) : Option Vrf :=
  l.find? (fun v => v.name == n)

/-- Map removal `delete(s.Vrfs, name)`. -/
def vrfDelete (l : List Vrf) (n : String) : List Vrf :=
  l.filter (fun v => v.name != n)

/-- Map insertion `s.Vrfs[v.Name] = v` (replace any entry with that key). -/
def vrfPut (l : List Vrf) (v : Vrf) : List Vrf :=
  v :: vrfDelete l v.name

/-- Map lookup `s.Bridges[name]`. -/
def lbLookup (l : List LogicalBridge) (n : String) : Option LogicalBridge :=
  l.find? (fun b => b.name == n)

/-- Map removal `delete(s.Bridges, name)`. -/
def lbDelete (l : List LogicalBridge) (n : String) : List LogicalBridge :=
  l.filter (fun b => b.name != n)

/-- Map insertion `s.Bridges[b.Name] = b`. -/
def lbPut (l : List LogicalBridge) (b : LogicalBridge) : List LogicalBridge :=
  b :: lbDelete l b.name

/-- Pagination-table lookup `s.Pagination[token]`. -/
def pagLookup (l : List (String × Nat)) (tok : String) : Option Nat :=
  (l.find? (fun p => p.fst == tok)).map (·.snd)

/-- Modelled from the spec: the fixed default page length used when the
caller passes the zero sentinel (`extractPagination` is not part of the
excerpt). -/
def defaultPageSize : Nat := 50

/-- Modelled from the spec: `extractPagination` is not part of the excerpt.
Per the spec, `page_size` is the page length with the zero sentinel mapped
to a fixed default; an absent (empty) token means offset 0; a non-empty
token is resolved through the pagination table and an unknown token is an
`InvalidArgument` error. -/
def extractPagination (pageSize : Nat) (pageToken : String)
    (pagination : List (String × Nat)) : Except GrpcError (Nat × Nat) :=
  let size := if pageSize = 0 then defaultPageSize else pageSize
  if pageToken = "" then .ok (size, 0)
  else
    match pagLookup pagination pageToken with
    | some offset => .ok (size, offset)
    | none => .error ⟨.InvalidArgument, "unknown pagination token"⟩

/-- Modelled from the spec: `limitPagination` is not part of the excerpt.
Per the spec the response is the slice `[offset, offset+size)` of the
sorted snapshot, together with whether elements remain beyond it. -/
def limitPagination {α : Type} (l : List α) (offset size : Nat) :
    List α × Bool :=
  ((l.drop offset).take size, offset + size < l.length)

/-- The comparison used by `sortVrfs`: ascending resource name. -/
def vrfNameLe (a b : Vrf) : Prop := a.name ≤ b.name

instance : DecidableRel vrfNameLe :=
  fun a b => inferInstanceAs (Decidable (a.name ≤ b.name))

instance : IsTotal Vrf vrfNameLe := ⟨fun a b => le_total a.name b.name⟩

instance : IsTrans Vrf vrfNameLe := ⟨fun _ _ _ => le_trans⟩

/-- `sortVrfs`: sort the slice ascending by `Name` (a comparison sort,
as `sort.Slice` with `vrfs[i].Name < vrfs[j].Name`). -/
def sortVrfs (l : List Vrf) : List Vrf :=
  List.insertionSort vrfNameLe l

/-- The comparison used by `sortLogicalBridges`: ascending resource name. -/
def lbNameLe (a b : LogicalBridge) : Prop := a.name ≤ b.name

instance : DecidableRel lbNameLe :=
  fun a b => inferInstanceAs (Decidable (a.name ≤ b.name))

instance : IsTotal LogicalBridge lbNameLe := ⟨fun a b => le_total a.name b.name⟩

instance : IsTrans LogicalBridge lbNameLe := ⟨fun _ _ _ => le_trans⟩

/-- `sortLogicalBridges`: sort the slice ascending by `Name`. -/
def sortLogicalBridges (l : List LogicalBridge) : List LogicalBridge :=
  List.insertionSort lbNameLe l

/-- The status `&pb.VrfStatus{LocalAs: 4}` (other fields at Go zero values). -/
def vrfStatusLocalAs4 : VrfStatus :=
  { localAs := 4, routingTable := 0, rmac := [] }

/-- The status `&pb.LogicalBridgeStatus{OperStatus: LB_OPER_STATUS_UP}`. -/
def lbStatusUp : LogicalBridgeStatus :=
  { operStatus := .UP }

/-- The status-replaced snapshot the `ListVrfs` loop builds from the store
(`r := protoClone(vrf); r.Status = &pb.VrfStatus{LocalAs: 4}`). -/
def vrfListSnapshot (l : List Vrf) : List Vrf :=
  l.map (fun v => { v with status := some vrfStatusLocalAs4 })

/-- The status-replaced snapshot the `ListLogicalBridges` loop builds from
the store (status replaced by `LB_OPER_STATUS_UP`). -/
def lbListSnapshot (l : List LogicalBridge) : List LogicalBridge :=
  l.map (fun b => { b with status := some lbStatusUp })

/-- The routing-table computation of `CreateVrf`:
`tableID := uint32(1000)`, overwritten with
`uint32(1001 + math.Mod(float64(*in.Vrf.Spec.Vni), 10.0))` when
`in.Vrf.Spec.Vni != nil` (exact for the 24-bit VNI range, so `% 10`). -/
def vrfTableID (vni : Option Nat) : Nat :=
  match vni with
  | some v => 1001 + v % 10
  | none => 1000

/-- `CreateVrf`: validate, derive the full name, idempotency probe,
compute `tableID` and a random MAC, drive netlink then FRR, commit. -/
def CreateVrf (env : Env) (s : Server) (req : CreateVrfRequest) :
    Except GrpcError Vrf × Server × List BackendCall :=
  match env.validateCreateVrf req with
  | some e => (.error e, s, [])
  | none =>
    let resourceID := if req.vrfId != "" then req.vrfId else env.sysGenId
    let name := resourceIDToFullName "vrfs" resourceID
    match vrfLookup s.vrfs name with
    | some obj => (.ok obj, s, [])
    | none =>
      let tableID := vrfTableID req.vrf.spec.vni
      match env.randMac with
      | .error e => (.error e, s, [])
      | .ok mac =>
        match env.netlinkCreateVrfRes with
        | some e => (.error e, s, [.netlinkCreateVrf])
        | none =>
          match env.frrCreateVrfRes with
          | some e => (.error e, s, [.netlinkCreateVrf, .frrCreateVrf])
          | none =>
            let response : Vrf :=
              { name := name, spec := req.vrf.spec,
                status := some { localAs := 4, routingTable := tableID, rmac := mac } }
            (.ok response, { s with vrfs := vrfPut s.vrfs response },
              [.netlinkCreateVrf, .frrCreateVrf])

/-- `DeleteVrf`: validate, lookup (allow-missing fast path), drive netlink
then FRR, remove from the store. -/
def DeleteVrf (env : Env) (s : Server) (req : DeleteVrfRequest) :
    Except GrpcError Unit × Server × List BackendCall :=
  match env.validateDeleteVrf req with
  | some e => (.error e, s, [])
  | none =>
    match vrfLookup s.vrfs req.name with
    | none =>
      if req.allowMissing then (.ok (), s, [])
      else (.error ⟨.NotFound, "unable to find key " ++ req.name⟩, s, [])
    | some obj =>
      match env.netlinkDeleteVrfRes with
      | some e => (.error e, s, [.netlinkDeleteVrf])
      | none =>
        match env.frrDeleteVrfRes with
        | some e => (.error e, s, [.netlinkDeleteVrf, .frrDeleteVrf])
        | none =>
          (.ok (), { s with vrfs := vrfDelete s.vrfs obj.name },
            [.netlinkDeleteVrf, .frrDeleteVrf])

/-- `UpdateVrf`: validate, lookup, re-resolve the live kernel link by the
short id (`path.Base`), modify it, commit a clone of the request with a
fresh `&pb.VrfStatus{LocalAs: 4}` status. -/
def UpdateVrf (env : Env) (s : Server) (req : UpdateVrfRequest) :
    Except GrpcError Vrf × Server × List BackendCall :=
  match env.validateUpdateVrf req with
  | some e => (.error e, s, [])
  | none =>
    match vrfLookup s.vrfs req.vrf.name with
    | none => (.error ⟨.NotFound, "unable to find key " ++ req.vrf.name⟩, s, [])
    | some vrf =>
      let resourceID := pathBase vrf.name
      if env.linkFound resourceID then
        match env.linkModifyRes resourceID with
        | some e => (.error e, s, [.linkByName resourceID, .linkModify resourceID])
        | none =>
          let response : Vrf := { req.vrf with status := some vrfStatusLocalAs4 }
          (.ok response, { s with vrfs := vrfPut s.vrfs response },
            [.linkByName resourceID, .linkModify resourceID])
      else
        (.error ⟨.NotFound, "unable to find key " ++ resourceID⟩, s,
          [.linkByName resourceID])

/-- `GetVrf`: validate, lookup, re-confirm the kernel link exists, return a
freshly constructed view with `&pb.VrfStatus{LocalAs: 77}`. -/
def GetVrf (env : Env) (s : Server) (req : GetVrfRequest) :
    Except GrpcError Vrf × Server × List BackendCall :=
  match env.validateGetVrf req with
  | some e => (.error e, s, [])
  | none =>
    match vrfLookup s.vrfs req.name with
    | none => (.error ⟨.NotFound, "unable to find key " ++ req.name⟩, s, [])
    | some obj =>
      let resourceID := pathBase obj.name
      if env.linkFound resourceID then
        (.ok { name := req.name, spec := { vni := obj.spec.vni },
               status := some { localAs := 77, routingTable := 0, rmac := [] } },
          s, [.linkByName resourceID])
      else
        (.error ⟨.NotFound, "unable to find key " ++ resourceID⟩, s,
          [.linkByName resourceID])

/-- `ListVrfs`: required-field check, pagination extraction, snapshot the
store with every status replaced by `&pb.VrfStatus{LocalAs: 4}`, sort by
name, slice, and mint a token when elements remain. -/
def ListVrfs (env : Env) (s : Server) (req : ListVrfsRequest) :
    Except GrpcError ListVrfsResponse × Server :=
  match env.requiredFieldsListVrfs with
  | some e => (.error e, s)
  | none =>
    match extractPagination req.pageSize req.pageToken s.pagination with
    | .error perr => (.error perr, s)
    | .ok (size, offset) =>
      let blobarray := vrfListSnapshot s.vrfs
      let sorted := sortVrfs blobarray
      let res := limitPagination sorted offset size
      if res.snd then
        (.ok { vrfs := res.fst, nextPageToken := env.newToken },
          { s with pagination := (env.newToken, offset + size) :: s.pagination })
      else
        (.ok { vrfs := res.fst, nextPageToken := "" }, s)

/-- `CreateLogicalBridge`: validate, derive the full name, idempotency
probe, drive netlink, commit with status `LB_OPER_STATUS_UP`. -/
def CreateLogicalBridge (env : Env) (s : Server) (req : CreateLogicalBridgeRequest) :
    Except GrpcError LogicalBridge × Server × List BackendCall :=
  match env.validateCreateLB req with
  | some e => (.error e, s, [])
  | none =>
    let resourceID := if req.logicalBridgeId != "" then req.logicalBridgeId else env.sysGenId
    let name := resourceIDToFullName "bridges" resourceID
    match lbLookup s.bridges name with
    | some obj => (.ok obj, s, [])
    | none =>
      match env.netlinkCreateLBRes with
      | some e => (.error e, s, [.netlinkCreateLogicalBridge])
      | none =>
        let response : LogicalBridge :=
          { name := name, spec := req.logicalBridge.spec, status := some lbStatusUp }
        (.ok response, { s with bridges := lbPut s.bridges response },
          [.netlinkCreateLogicalBridge])

/-- `DeleteLogicalBridge`: validate, lookup (allow-missing fast path),
drive netlink, remove from the store. -/
def DeleteLogicalBridge (env : Env) (s : Server) (req : DeleteLogicalBridgeRequest) :
    Except GrpcError Unit × Server × List BackendCall :=
  match env.validateDeleteLB req with
  | some e => (.error e, s, [])
  | none =>
    match lbLookup s.bridges req.name with
    | none =>
      if req.allowMissing then (.ok (), s, [])
      else (.error ⟨.NotFound, "unable to find key " ++ req.name⟩, s, [])
    | some obj =>
      match env.netlinkDeleteLBRes with
      | some e => (.error e, s, [.netlinkDeleteLogicalBridge])
      | none =>
        (.ok (), { s with bridges := lbDelete s.bridges obj.name },
          [.netlinkDeleteLogicalBridge])

/-- `UpdateLogicalBridge`: validate, lookup; when the stored bridge has a
VNI, re-resolve the vxlan link `"vni<N>"` and modify it; commit a clone of
the request with status `LB_OPER_STATUS_UP`. -/
def UpdateLogicalBridge (env : Env) (s : Server) (req : UpdateLogicalBridgeRequest) :
    Except GrpcError LogicalBridge × Server × List BackendCall :=
  match env.validateUpdateLB req with
  | some e => (.error e, s, [])
  | none =>
    match lbLookup s.bridges req.logicalBridge.name with
    | none => (.error ⟨.NotFound, "unable to find key " ++ req.logicalBridge.name⟩, s, [])
    | some bridge =>
      match bridge.spec.vni with
      | some n =>
        let vxlanName := "vni" ++ toString n
        if env.linkFound vxlanName then
          match env.linkModifyRes vxlanName with
          | some e => (.error e, s, [.linkByName vxlanName, .linkModify vxlanName])
          | none =>
            let response : LogicalBridge :=
              { req.logicalBridge with status := some lbStatusUp }
            (.ok response, { s with bridges := lbPut s.bridges response },
              [.linkByName vxlanName, .linkModify vxlanName])
        else
          (.error ⟨.NotFound, "unable to find key " ++ vxlanName⟩, s,
            [.linkByName vxlanName])
      | none =>
        let response : LogicalBridge :=
          { req.logicalBridge with status := some lbStatusUp }
        (.ok response, { s with bridges := lbPut s.bridges response }, [])

/-- `GetLogicalBridge`: validate, lookup; when the stored bridge has a VNI,
re-confirm the vxlan link `"vni<N>"`; return a fresh view with status UP. -/
def GetLogicalBridge (env : Env) (s : Server) (req : GetLogicalBridgeRequest) :
    Except GrpcError LogicalBridge × Server × List BackendCall :=
  match env.validateGetLB req with
  | some e => (.error e, s, [])
  | none =>
    match lbLookup s.bridges req.name with
    | none => (.error ⟨.NotFound, "unable to find key " ++ req.name⟩, s, [])
    | some bridge =>
      match bridge.spec.vni with
      | some n =>
        let vxlanName := "vni" ++ toString n
        if env.linkFound vxlanName then
          (.ok { name := req.name,
                 spec := { vni := bridge.spec.vni, vlanId := bridge.spec.vlanId },
                 status := some lbStatusUp }, s, [.linkByName vxlanName])
        else
          (.error ⟨.NotFound, "unable to find key " ++ vxlanName⟩, s,
            [.linkByName vxlanName])
      | none =>
        (.ok { name := req.name,
               spec := { vni := bridge.spec.vni, vlanId := bridge.spec.vlanId },
               status := some lbStatusUp }, s, [])

/-- `ListLogicalBridges`: required-field check, pagination extraction,
snapshot with every status replaced by UP, sort by name, slice, and mint a
token when elements remain. -/
def ListLogicalBridges (env : Env) (s : Server) (req : ListLogicalBridgesRequest) :
    Except GrpcError ListLogicalBridgesResponse × Server :=
  match env.requiredFieldsListLBs with
  | some e => (.error e, s)
  | none =>
    match extractPagination req.pageSize req.pageToken s.pagination with
    | .error perr => (.error perr, s)
    | .ok (size, offset) =>
      let blobarray := lbListSnapshot s.bridges
      let sorted := sortLogicalBridges blobarray
      let res := limitPagination sorted offset size
      if res.snd then
        (.ok { logicalBridges := res.fst, nextPageToken := env.newToken },
          { s with pagination := (env.newToken, offset + size) :: s.pagination })
      else
        (.ok { logicalBridges := res.fst, nextPageToken := "" }, s)

/-- `validateCreateBridgePortRequest`: required fields, the ACCESS
cardinality check, and user-settable id syntax. -/
def validateCreateBridgePortRequest (env : Env) (req : CreateBridgePortRequest) :
    Option GrpcError :=
  match env.requiredFieldsBP with
  | some e => some e
  | none =>
    let length := req.bridgePort.spec.logicalBridges.length
    if req.bridgePort.spec.ptype = .ACCESS ∧ length > 1 then
      some ⟨.InvalidArgument,
        "ACCESS type must have single LogicalBridge and not (" ++ toString length ++ ")"⟩
    else
      if req.bridgePortId != "" then env.validateUserSettable req.bridgePortId
      else none

/-- The full name `CreateVrf` derives: caller-supplied id when non-empty,
else the system-generated id, prefixed with the `"vrfs"` collection. -/
def vrfFullName (env : Env) (req : CreateVrfRequest) : String :=
  resourceIDToFullName "vrfs" (if req.vrfId != "" then req.vrfId else env.sysGenId)

/-- The full name `CreateLogicalBridge` derives. -/
def lbFullName (env : Env) (req : CreateLogicalBridgeRequest) : String :=
  resourceIDToFullName "bridges" (if req.logicalBridgeId != "" then req.logicalBridgeId else env.sysGenId)

theorem vrfLookup_put_self (l : List Vrf) (v : Vrf) :
    vrfLookup (vrfPut l v) v.name = some v := by
  simp [vrfLookup, vrfPut, List.find?]

theorem lbLookup_put_self (l : List LogicalBridge) (b : LogicalBridge) :
    lbLookup (lbPut l b) b.name = some b := by
  simp [lbLookup, lbPut, List.find?]

theorem vrfLookup_delete_self (l : List Vrf) (n : String) :
    vrfLookup (vrfDelete l n) n = none := by
  rw [vrfLookup, List.find?_eq_none]
  intro v hv
  have h := List.of_mem_filter hv
  simpa using h

theorem lbLookup_delete_self (l : List LogicalBridge) (n : String) :
    lbLookup (lbDelete l n) n = none := by
  rw [lbLookup, List.find?_eq_none]
  intro b hb
  have h := List.of_mem_filter hb
  simpa using h

theorem vrfLookup_name {l : List Vrf} {n : String} {v : Vrf}
    (h : vrfLookup l n = some v) : v.name = n := by
  have hp := List.find?_some h
  simpa using hp

theorem lbLookup_name {l : List LogicalBridge} {n : String} {b : LogicalBridge}
    (h : lbLookup l n = some b) : b.name = n := by
  have hp := List.find?_some h
  simpa using hp


/-- Characterization of a successful fresh `CreateVrf` (name not in the
store): the committed object, the new state, and the backend trace. -/
theorem createVrf_fresh (env : Env) (s : Server) (req : CreateVrfRequest)
    (r : Vrf) (s1 : Server) (t : List BackendCall) (mac : List Nat)
    (hmiss : vrfLookup s.vrfs (vrfFullName env req) = none)
    (hmac : env.randMac = .ok mac)
    (h : CreateVrf env s req = (.ok r, s1, t)) :
    r = { name := vrfFullName env req, spec := req.vrf.spec,
          status := some { localAs := 4, routingTable := vrfTableID req.vrf.spec.vni,
                           rmac := mac } } ∧
    s1 = { s with vrfs := vrfPut s.vrfs r } ∧
    t = [.netlinkCreateVrf, .frrCreateVrf] := by
  have hmiss' : vrfLookup s.vrfs
      (resourceIDToFullName "vrfs" (if req.vrfId != "" then req.vrfId else env.sysGenId))
      = none := hmiss
  simp only [CreateVrf] at h
  split at h
  · simp at h
  · split at h
    next obj heq =>
      rw [hmiss'] at heq
      exact Option.noConfusion heq
    next heq =>
      split at h
      next e heqm =>
        rw [hmac] at heqm
        exact Except.noConfusion heqm
      next mac2 heqm =>
        rw [hmac] at heqm
        injection heqm with hmac2
        subst hmac2
        split at h
        · simp at h
        · split at h
          · simp at h
          · simp only [Prod.mk.injEq, Except.ok.injEq] at h
            obtain ⟨h1, h2, h3⟩ := h
            subst h1; subst h2; subst h3
            exact ⟨rfl, rfl, rfl⟩

/-- Characterization of a successful `CreateLogicalBridge` on a fresh name. -/
theorem createLB_fresh (env : Env) (s : Server) (req : CreateLogicalBridgeRequest)
    (r : LogicalBridge) (s1 : Server) (t : List BackendCall)
    (hmiss : lbLookup s.bridges (lbFullName env req) = none)
    (h : CreateLogicalBridge env s req = (.ok r, s1, t)) :
    r = { name := lbFullName env req, spec := req.logicalBridge.spec,
          status := some lbStatusUp } ∧
    s1 = { s with bridges := lbPut s.bridges r } ∧
    t = [.netlinkCreateLogicalBridge] := by
  have hmiss' : lbLookup s.bridges
      (resourceIDToFullName "bridges"
        (if req.logicalBridgeId != "" then req.logicalBridgeId else env.sysGenId))
      = none := hmiss
  simp only [CreateLogicalBridge] at h
  split at h
  · simp at h
  · split at h
    next obj heq =>
      rw [hmiss'] at heq
      exact Option.noConfusion heq
    next heq =>
      split at h
      · simp at h
      · simp only [Prod.mk.injEq, Except.ok.injEq] at h
        obtain ⟨h1, h2, h3⟩ := h
        subst h1; subst h2; subst h3
        exact ⟨rfl, rfl, rfl⟩

/-- After any successful `CreateVrf`, the derived full name maps to the
returned object in the resulting store. -/
theorem createVrf_ok_lookup (env : Env) (s : Server) (req : CreateVrfRequest)
    (r : Vrf) (s1 : Server) (t : List BackendCall)
    (h : CreateVrf env s req = (.ok r, s1, t)) :
    vrfLookup s1.vrfs (vrfFullName env req) = some r := by
  simp only [CreateVrf] at h
  split at h
  · simp at h
  · split at h
    next obj heq =>
      simp only [Prod.mk.injEq, Except.ok.injEq] at h
      obtain ⟨h1, h2, h3⟩ := h
      subst h1; subst h2
      exact heq
    next heq =>
      split at h
      · simp at h
      · split at h
        · simp at h
        · split at h
          · simp at h
          · simp only [Prod.mk.injEq, Except.ok.injEq] at h
            obtain ⟨h1, h2, h3⟩ := h
            subst h1; subst h2
            exact vrfLookup_put_self s.vrfs _

/-- After any successful `CreateLogicalBridge`, the derived full name maps
to the returned object in the resulting store. -/
theorem createLB_ok_lookup (env : Env) (s : Server) (req : CreateLogicalBridgeRequest)
    (r : LogicalBridge) (s1 : Server) (t : List BackendCall)
    (h : CreateLogicalBridge env s req = (.ok r, s1, t)) :
    lbLookup s1.bridges (lbFullName env req) = some r := by
  simp only [CreateLogicalBridge] at h
  split at h
  · simp at h
  · split at h
    next obj heq =>
      simp only [Prod.mk.injEq, Except.ok.injEq] at h
      obtain ⟨h1, h2, h3⟩ := h
      subst h1; subst h2
      exact heq
    next heq =>
      split at h
      · simp at h
      · simp only [Prod.mk.injEq, Except.ok.injEq] at h
        obtain ⟨h1, h2, h3⟩ := h
        subst h1; subst h2
        exact lbLookup_put_self s.bridges _

/-- Characterization of a successful `UpdateVrf`: the committed object is a
clone of the request with the fixed `{LocalAs: 4}` status. -/
theorem updateVrf_ok (env : Env) (s : Server) (req : UpdateVrfRequest)
    (r : Vrf) (s1 : Server) (t : List BackendCall)
    (h : UpdateVrf env s req = (.ok r, s1, t)) :
    r = { req.vrf with status := some vrfStatusLocalAs4 } ∧
    s1 = { s with vrfs := vrfPut s.vrfs r } := by
  simp only [UpdateVrf] at h
  split at h
  · simp at h
  · split at h
    · simp at h
    · split at h
      · split at h
        · simp at h
        · simp only [Prod.mk.injEq, Except.ok.injEq] at h
          obtain ⟨h1, h2, h3⟩ := h
          subst h1; subst h2
          exact ⟨rfl, rfl⟩
      · simp at h

/-- A concrete MAC value, as `generateRandMAC` would produce. -/
def macA : List Nat := [2, 0, 0, 0, 0, 1]

/-- The empty server state. -/
def srv0 : Server := { vrfs := [], bridges := [], pagination := [] }

/-- A concrete all-success oracle: every validator and backend call
succeeds, the kernel finds every link, the MAC is `macA`, the minted
pagination token is `"tok-1"`. -/
def envAllOk : Env :=
  { sysGenId := "gen"
    randMac := .ok macA
    newToken := "tok-1"
    validateCreateVrf := fun _ => none
    validateDeleteVrf := fun _ => none
    validateUpdateVrf := fun _ => none
    validateGetVrf := fun _ => none
    validateCreateLB := fun _ => none
    validateDeleteLB := fun _ => none
    validateUpdateLB := fun _ => none
    validateGetLB := fun _ => none
    requiredFieldsListVrfs := none
    requiredFieldsListLBs := none
    requiredFieldsBP := none
    validateUserSettable := fun _ => none
    netlinkCreateVrfRes := none
    frrCreateVrfRes := none
    netlinkDeleteVrfRes := none
    frrDeleteVrfRes := none
    netlinkCreateLBRes := none
    netlinkDeleteLBRes := none
    linkFound := fun _ => true
    linkModifyRes := fun _ => none }

/-- The all-success oracle with every kernel link missing. -/
def envNoLink : Env := { envAllOk with linkFound := fun _ => false }

/-- A concrete create request with caller-supplied id `"a"` and no VNI. -/
def creqA : CreateVrfRequest :=
  { vrfId := "a", vrf := { name := "", spec := { vni := none }, status := none } }

/-- The server state after `CreateVrf envAllOk srv0 creqA`. -/
def srvA : Server := (CreateVrf envAllOk srv0 creqA).2.1

/-- A concrete update request for the VRF created by `creqA`. -/
def ureqA : UpdateVrfRequest :=
  { vrf := { name := "vrfs/a", spec := { vni := none }, status := none } }

/-- The server state after updating the VRF created by `creqA`. -/
def srvA2 : Server := (UpdateVrf envAllOk srvA ureqA).2.1

/-- **C1**: for both resource kinds, when an object already exists in the
store under the derived full name, Create returns exactly that stored
object, leaves the whole server state unchanged, and performs no backend
(netlink/FRR) calls; and after any successful Create, a second Create with
the same request (same caller-supplied id) returns the identical response
(same name, spec and status, including the same random MAC), again with no
state change and no backend calls. -/
theorem c1_create_idempotent (env : Env) (s : Server)
    (vreq : CreateVrfRequest) (breq : CreateLogicalBridgeRequest)
    (vobj : Vrf) (bobj : LogicalBridge)
    (hvv : env.validateCreateVrf vreq = none)
    (hvb : env.validateCreateLB breq = none)
    (hve : vrfLookup s.vrfs (vrfFullName env vreq) = some vobj)
    (hbe : lbLookup s.bridges (lbFullName env breq) = some bobj) :
    CreateVrf env s vreq = (.ok vobj, s, []) ∧
    CreateLogicalBridge env s breq = (.ok bobj, s, []) ∧
    (∀ s0 r s1 t, CreateVrf env s0 vreq = (.ok r, s1, t) →
        CreateVrf env s1 vreq = (.ok r, s1, [])) ∧
    (∀ s0 r s1 t, CreateLogicalBridge env s0 breq = (.ok r, s1, t) →
        CreateLogicalBridge env s1 breq = (.ok r, s1, [])) := by
  have hve2 : vrfLookup s.vrfs
      (resourceIDToFullName "vrfs" (if vreq.vrfId = "" then env.sysGenId else vreq.vrfId))
      = some vobj := by
    simpa [vrfFullName, resourceIDToFullName] using hve
  have hbe2 : lbLookup s.bridges
      (resourceIDToFullName "bridges"
        (if breq.logicalBridgeId = "" then env.sysGenId else breq.logicalBridgeId))
      = some bobj := by
    simpa [lbFullName, resourceIDToFullName] using hbe
  refine ⟨?_, ?_, ?_, ?_⟩
  · simp [CreateVrf, hvv, hve2]
  · simp [CreateLogicalBridge, hvb, hbe2]
  · intro s0 r s1 t h
    have hlk := createVrf_ok_lookup env s0 vreq r s1 t h
    have hlk2 : vrfLookup s1.vrfs
        (resourceIDToFullName "vrfs" (if vreq.vrfId = "" then env.sysGenId else vreq.vrfId))
        = some r := by
      simpa [vrfFullName, resourceIDToFullName] using hlk
    simp [CreateVrf, hvv, hlk2]
  · intro s0 r s1 t h
    have hlk := createLB_ok_lookup env s0 breq r s1 t h
    have hlk2 : lbLookup s1.bridges
        (resourceIDToFullName "bridges"
          (if breq.logicalBridgeId = "" then env.sysGenId else breq.logicalBridgeId))
        = some r := by
      simpa [lbFullName, resourceIDToFullName] using hlk
    simp [CreateLogicalBridge, hvb, hlk2]

/-- A VRF already in the store under `"vrfs/a"`. -/
def vrfW : Vrf :=
  { name := "vrfs/a", spec := { vni := some 12 },
    status := some { localAs := 4, routingTable := 1003, rmac := macA } }

/-- A LogicalBridge already in the store under `"bridges/b"`. -/
def lbW : LogicalBridge :=
  { name := "bridges/b", spec := { vlanId := 5, vni := some 7 }, status := some lbStatusUp }

/-- A server already holding `vrfW` and `lbW`. -/
def srvW : Server := { vrfs := [vrfW], bridges := [lbW], pagination := [] }

/-- A create request whose derived name collides with `vrfW`. -/
def creqW : CreateVrfRequest :=
  { vrfId := "a", vrf := { name := "", spec := { vni := some 99 }, status := none } }

/-- A create request whose derived name collides with `lbW`. -/
def breqW : CreateLogicalBridgeRequest :=
  { logicalBridgeId := "b",
    logicalBridge := { name := "", spec := { vlanId := 1, vni := none }, status := none } }

/-- Witness for C1 at a concrete input: both Creates on occupied names
return the stored objects unchanged with no backend calls. -/
theorem c1_witness :
    envAllOk.validateCreateVrf creqW = none ∧
    envAllOk.validateCreateLB breqW = none ∧
    vrfLookup srvW.vrfs (vrfFullName envAllOk creqW) = some vrfW ∧
    lbLookup srvW.bridges (lbFullName envAllOk breqW) = some lbW ∧
    CreateVrf envAllOk srvW creqW = (.ok vrfW, srvW, []) ∧
    CreateLogicalBridge envAllOk srvW breqW = (.ok lbW, srvW, []) :=
  ⟨rfl, rfl, by decide, by decide,
   (c1_create_idempotent envAllOk srvW creqW breqW vrfW lbW rfl rfl
      (by decide) (by decide)).1,
   (c1_create_idempotent envAllOk srvW creqW breqW vrfW lbW rfl rfl
      (by decide) (by decide)).2.1⟩

/-- **C2**: for every successful fresh `CreateVrf`, the returned (and
stored) status carries `routingTable = 1001 + vni % 10` when the request's
`spec.vni` is set, and `routingTable = 1000` when it is absent. -/
theorem c2_routing_table_from_vni (env : Env) (s : Server) (req : CreateVrfRequest)
    (r : Vrf) (s1 : Server) (t : List BackendCall) (mac : List Nat)
    (hmiss : vrfLookup s.vrfs (vrfFullName env req) = none)
    (hmac : env.randMac = .ok mac)
    (h : CreateVrf env s req = (.ok r, s1, t)) :
    (∀ v, req.vrf.spec.vni = some v →
        r.status = some { localAs := 4, routingTable := 1001 + v % 10, rmac := mac }) ∧
    (req.vrf.spec.vni = none →
        r.status = some { localAs := 4, routingTable := 1000, rmac := mac }) ∧
    vrfLookup s1.vrfs (vrfFullName env req) = some r := by
  obtain ⟨h1, h2, h3⟩ := createVrf_fresh env s req r s1 t mac hmiss hmac h
  refine ⟨?_, ?_, createVrf_ok_lookup env s req r s1 t h⟩
  · intro v hv
    subst h1
    simp [vrfTableID, hv]
  · intro hv
    subst h1
    simp [vrfTableID, hv]

/-- A fresh create request with caller-supplied id `"x"` and `vni = 12`. -/
def creq12 : CreateVrfRequest :=
  { vrfId := "x", vrf := { name := "", spec := { vni := some 12 }, status := none } }

/-- The object `CreateVrf envAllOk srv0 creq12` commits: table `1003`. -/
def vrf12 : Vrf :=
  { name := "vrfs/x", spec := { vni := some 12 },
    status := some { localAs := 4, routingTable := 1003, rmac := macA } }

/-- The server state after creating `creq12` from empty. -/
def srv12 : Server := { vrfs := [vrf12], bridges := [], pagination := [] }

/-- Witness for C2 at `vni = 12`: the routing table is `1001 + 12 % 10 = 1003`. -/
theorem c2_witness :
    vrfLookup srv0.vrfs (vrfFullName envAllOk creq12) = none ∧
    CreateVrf envAllOk srv0 creq12 =
      (.ok vrf12, srv12, [.netlinkCreateVrf, .frrCreateVrf]) ∧
    vrf12.status = some { localAs := 4, routingTable := 1001 + 12 % 10, rmac := macA } :=
  ⟨by decide, by decide,
   (c2_routing_table_from_vni envAllOk srv0 creq12 vrf12 srv12
      [.netlinkCreateVrf, .frrCreateVrf] macA (by decide) rfl (by decide)).1 12 rfl⟩

/-- The object `CreateVrf envAllOk srv0 creqA` commits. -/
def vrfCreatedA : Vrf :=
  { name := "vrfs/a", spec := { vni := none },
    status := some { localAs := 4, routingTable := 1000, rmac := macA } }

/-- The object `UpdateVrf envAllOk srvA ureqA` commits: rmac is gone. -/
def vrfUpdatedA : Vrf :=
  { name := "vrfs/a", spec := { vni := none }, status := some vrfStatusLocalAs4 }

/-- **C3 counterexample**: create `"vrfs/a"` (stored rmac `macA`), then a
successful `UpdateVrf` on the same name; the stored status now has rmac
`[]`, not `macA` — the rmac assigned at creation is lost, refuting the
claim that update leaves it unchanged. -/
theorem c3_counterexample :
    (vrfLookup srvA.vrfs "vrfs/a").map Vrf.status =
      some (some { localAs := 4, routingTable := 1000, rmac := macA }) ∧
    (UpdateVrf envAllOk srvA ureqA).1 = .ok vrfUpdatedA ∧
    (vrfLookup srvA2.vrfs "vrfs/a").map Vrf.status =
      some (some { localAs := 4, routingTable := 0, rmac := [] }) ∧
    macA ≠ [] := by decide

/-- **C3** (amended): rmac is assigned exactly once, at creation, from the
generated MAC; but a successful `UpdateVrf` commits a status that is the
fixed `{localAs := 4, routingTable := 0, rmac := []}`, so the
creation-time rmac is dropped from the stored object rather than
preserved. -/
theorem c3_rmac_created_then_dropped (env : Env) (s s1 s2 : Server)
    (creq : CreateVrfRequest) (ureq : UpdateVrfRequest)
    (mac : List Nat) (r r2 : Vrf) (t t2 : List BackendCall)
    (hmac : env.randMac = .ok mac)
    (hmiss : vrfLookup s.vrfs (vrfFullName env creq) = none)
    (hc : CreateVrf env s creq = (.ok r, s1, t))
    (hu : UpdateVrf env s1 ureq = (.ok r2, s2, t2)) :
    r.status = some { localAs := 4, routingTable := vrfTableID creq.vrf.spec.vni,
                      rmac := mac } ∧
    r2.status = some vrfStatusLocalAs4 ∧
    vrfLookup s2.vrfs ureq.vrf.name = some r2 := by
  obtain ⟨h1, h2, h3⟩ := createVrf_fresh env s creq r s1 t mac hmiss hmac hc
  obtain ⟨h4, h5⟩ := updateVrf_ok env s1 ureq r2 s2 t2 hu
  refine ⟨by rw [h1], by rw [h4], ?_⟩
  subst h5
  have hn : r2.name = ureq.vrf.name := by rw [h4]
  rw [← hn]
  exact vrfLookup_put_self s1.vrfs r2

/-- Witness for C3 at a concrete run: create then update `"vrfs/a"`. -/
theorem c3_witness :
    envAllOk.randMac = .ok macA ∧
    vrfLookup srv0.vrfs (vrfFullName envAllOk creqA) = none ∧
    vrfUpdatedA.status = some vrfStatusLocalAs4 ∧
    vrfLookup srvA2.vrfs "vrfs/a" = some vrfUpdatedA :=
  ⟨rfl, by decide,
   (c3_rmac_created_then_dropped envAllOk srv0 srvA srvA2 creqA ureqA macA
      vrfCreatedA vrfUpdatedA [.netlinkCreateVrf, .frrCreateVrf]
      [.linkByName "a", .linkModify "a"]
      rfl (by decide) (by decide) (by decide)).2.1,
   (c3_rmac_created_then_dropped envAllOk srv0 srvA srvA2 creqA ureqA macA
      vrfCreatedA vrfUpdatedA [.netlinkCreateVrf, .frrCreateVrf]
      [.linkByName "a", .linkModify "a"]
      rfl (by decide) (by decide) (by decide)).2.2⟩

/-- Characterization of a successful `ListVrfs` given the extracted
pagination values: the page is the `[offset, offset+size)` slice of the
sorted, status-replaced snapshot, and the token behaviour depends on
whether elements remain. -/
theorem listVrfs_ok (env : Env) (s : Server) (req : ListVrfsRequest)
    (size offset : Nat) (resp : ListVrfsResponse) (s1 : Server)
    (hrf : env.requiredFieldsListVrfs = none)
    (hp : extractPagination req.pageSize req.pageToken s.pagination = .ok (size, offset))
    (h : ListVrfs env s req = (.ok resp, s1)) :
    resp.vrfs = ((sortVrfs (vrfListSnapshot s.vrfs)).drop offset).take size ∧
    (offset + size < (sortVrfs (vrfListSnapshot s.vrfs)).length →
        resp.nextPageToken = env.newToken ∧
        s1 = { s with pagination := (env.newToken, offset + size) :: s.pagination }) ∧
    (¬ offset + size < (sortVrfs (vrfListSnapshot s.vrfs)).length →
        resp.nextPageToken = "" ∧ s1 = s) := by
  simp only [ListVrfs, hrf, hp, limitPagination] at h
  split at h
  next hcond =>
    have hlt := of_decide_eq_true hcond
    simp only [Prod.mk.injEq, Except.ok.injEq] at h
    obtain ⟨h1, h2⟩ := h
    subst h1; subst h2
    exact ⟨rfl, fun _ => ⟨rfl, rfl⟩, fun hn => absurd hlt hn⟩
  next hcond =>
    have hge : ¬ offset + size < (sortVrfs (vrfListSnapshot s.vrfs)).length :=
      fun hlt => hcond (decide_eq_true hlt)
    simp only [Prod.mk.injEq, Except.ok.injEq] at h
    obtain ⟨h1, h2⟩ := h
    subst h1; subst h2
    exact ⟨rfl, fun hlt => absurd hlt hge, fun _ => ⟨rfl, rfl⟩⟩

/-- Characterization of a successful `ListLogicalBridges`, as `listVrfs_ok`. -/
theorem listLBs_ok (env : Env) (s : Server) (req : ListLogicalBridgesRequest)
    (size offset : Nat) (resp : ListLogicalBridgesResponse) (s1 : Server)
    (hrf : env.requiredFieldsListLBs = none)
    (hp : extractPagination req.pageSize req.pageToken s.pagination = .ok (size, offset))
    (h : ListLogicalBridges env s req = (.ok resp, s1)) :
    resp.logicalBridges = ((sortLogicalBridges (lbListSnapshot s.bridges)).drop offset).take size ∧
    (offset + size < (sortLogicalBridges (lbListSnapshot s.bridges)).length →
        resp.nextPageToken = env.newToken ∧
        s1 = { s with pagination := (env.newToken, offset + size) :: s.pagination }) ∧
    (¬ offset + size < (sortLogicalBridges (lbListSnapshot s.bridges)).length →
        resp.nextPageToken = "" ∧ s1 = s) := by
  simp only [ListLogicalBridges, hrf, hp, limitPagination] at h
  split at h
  next hcond =>
    have hlt := of_decide_eq_true hcond
    simp only [Prod.mk.injEq, Except.ok.injEq] at h
    obtain ⟨h1, h2⟩ := h
    subst h1; subst h2
    exact ⟨rfl, fun _ => ⟨rfl, rfl⟩, fun hn => absurd hlt hn⟩
  next hcond =>
    have hge : ¬ offset + size < (sortLogicalBridges (lbListSnapshot s.bridges)).length :=
      fun hlt => hcond (decide_eq_true hlt)
    simp only [Prod.mk.injEq, Except.ok.injEq] at h
    obtain ⟨h1, h2⟩ := h
    subst h1; subst h2
    exact ⟨rfl, fun hlt => absurd hlt hge, fun _ => ⟨rfl, rfl⟩⟩

/-- Every successful `ListVrfs` returns only status-replaced clones of
stored objects and does not touch the resource stores. -/
theorem listVrfs_ok_members (env : Env) (s : Server) (req : ListVrfsRequest)
    (resp : ListVrfsResponse) (s1 : Server)
    (h : ListVrfs env s req = (.ok resp, s1)) :
    (∀ v ∈ resp.vrfs, ∃ w ∈ s.vrfs, v = { w with status := some vrfStatusLocalAs4 }) ∧
    s1.vrfs = s.vrfs ∧ s1.bridges = s.bridges := by
  simp only [ListVrfs, limitPagination] at h
  split at h
  · simp at h
  · split at h
    · simp at h
    · split at h
      all_goals
        simp only [Prod.mk.injEq, Except.ok.injEq] at h
        obtain ⟨h1, h2⟩ := h
        subst h1
        subst h2
        refine ⟨?_, rfl, rfl⟩
        intro v hv
        have hv1 : v ∈ (sortVrfs (vrfListSnapshot s.vrfs)).drop _ :=
          List.take_subset _ _ hv
        have hv2 : v ∈ sortVrfs (vrfListSnapshot s.vrfs) :=
          List.drop_subset _ _ hv1
        have hv3 : v ∈ vrfListSnapshot s.vrfs := by
          simpa [sortVrfs] using hv2
        obtain ⟨w, hw, hweq⟩ := List.mem_map.1 hv3
        exact ⟨w, hw, hweq.symm⟩

/-- Every successful `ListLogicalBridges` returns only status-replaced
clones of stored objects and does not touch the resource stores. -/
theorem listLBs_ok_members (env : Env) (s : Server) (req : ListLogicalBridgesRequest)
    (resp : ListLogicalBridgesResponse) (s1 : Server)
    (h : ListLogicalBridges env s req = (.ok resp, s1)) :
    (∀ b ∈ resp.logicalBridges, ∃ w ∈ s.bridges, b = { w with status := some lbStatusUp }) ∧
    s1.vrfs = s.vrfs ∧ s1.bridges = s.bridges := by
  simp only [ListLogicalBridges, limitPagination] at h
  split at h
  · simp at h
  · split at h
    · simp at h
    · split at h
      all_goals
        simp only [Prod.mk.injEq, Except.ok.injEq] at h
        obtain ⟨h1, h2⟩ := h
        subst h1
        subst h2
        refine ⟨?_, rfl, rfl⟩
        intro b hb
        have hb1 : b ∈ (sortLogicalBridges (lbListSnapshot s.bridges)).drop _ :=
          List.take_subset _ _ hb
        have hb2 : b ∈ sortLogicalBridges (lbListSnapshot s.bridges) :=
          List.drop_subset _ _ hb1
        have hb3 : b ∈ lbListSnapshot s.bridges := by
          simpa [sortLogicalBridges] using hb2
        obtain ⟨w, hw, hweq⟩ := List.mem_map.1 hb3
        exact ⟨w, hw, hweq.symm⟩

/-- The view `GetVrf envAllOk srvA` returns for `"vrfs/a"`: localAs 77. -/
def vrfGetA : Vrf :=
  { name := "vrfs/a", spec := { vni := none },
    status := some { localAs := 77, routingTable := 0, rmac := [] } }

/-- **C6 counterexample**: `CreateVrf` stores and returns `localAs = 4`,
but `GetVrf` on the same object reports `localAs = 77`, so localAs is not
one fixed constant across all operations. -/
theorem c6_counterexample :
    (CreateVrf envAllOk srv0 creqA).1 = .ok vrfCreatedA ∧
    vrfCreatedA.status = some { localAs := 4, routingTable := 1000, rmac := macA } ∧
    (GetVrf envAllOk srvA { name := "vrfs/a" }).1 = .ok vrfGetA ∧
    vrfGetA.status = some { localAs := 77, routingTable := 0, rmac := [] } ∧
    (4 : Nat) ≠ 77 := by decide

/-- **C6** (amended): `CreateVrf` (fresh creation), `UpdateVrf` and
`ListVrfs` all produce statuses with `localAs = 4`, but `GetVrf` reports
`localAs = 77`; the value is uniform across Create/Update/List and differs
only in Get. -/
theorem c6_localAs_not_uniform (env : Env) (s : Server) :
    (∀ creq r s1 t st mac, env.randMac = .ok mac →
        vrfLookup s.vrfs (vrfFullName env creq) = none →
        CreateVrf env s creq = (.ok r, s1, t) →
        r.status = some st → st.localAs = 4) ∧
    (∀ ureq r s1 t st, UpdateVrf env s ureq = (.ok r, s1, t) →
        r.status = some st → st.localAs = 4) ∧
    (∀ lreq resp s1, ListVrfs env s lreq = (.ok resp, s1) →
        ∀ v ∈ resp.vrfs, ∀ st, v.status = some st → st.localAs = 4) ∧
    (∀ greq r s1 t st, GetVrf env s greq = (.ok r, s1, t) →
        r.status = some st → st.localAs = 77) := by
  refine ⟨?_, ?_, ?_, ?_⟩
  · intro creq r s1 t st mac hmac hmiss h hst
    obtain ⟨h1, h2, h3⟩ := createVrf_fresh env s creq r s1 t mac hmiss hmac h
    subst h1
    simp only [Option.some.injEq] at hst
    rw [← hst]
  · intro ureq r s1 t st h hst
    obtain ⟨h1, h2⟩ := updateVrf_ok env s ureq r s1 t h
    subst h1
    simp only [Option.some.injEq] at hst
    rw [← hst]
    rfl
  · intro lreq resp s1 h v hv st hst
    obtain ⟨hmem, h2, h3⟩ := listVrfs_ok_members env s lreq resp s1 h
    obtain ⟨w, hw, hveq⟩ := hmem v hv
    subst hveq
    simp only [Option.some.injEq] at hst
    rw [← hst]
    rfl
  · intro greq r s1 t st h hst
    simp only [GetVrf] at h
    split at h
    · simp at h
    · split at h
      · simp at h
      · split at h
        next hcond =>
          simp only [Prod.mk.injEq, Except.ok.injEq] at h
          obtain ⟨h1, h2, h3⟩ := h
          subst h1
          simp only [Option.some.injEq] at hst
          rw [← hst]
        next hcond => simp at h

/-- Witness for C6 at a concrete run: create `"vrfs/a"` (status 4), then
Get reports 77. -/
theorem c6_witness :
    CreateVrf envAllOk srv0 creqA =
      (.ok vrfCreatedA, srvA, [.netlinkCreateVrf, .frrCreateVrf]) ∧
    ({ localAs := 4, routingTable := 1000, rmac := macA } : VrfStatus).localAs = 4 ∧
    GetVrf envAllOk srvA { name := "vrfs/a" } = (.ok vrfGetA, srvA, [.linkByName "a"]) ∧
    ({ localAs := 77, routingTable := 0, rmac := [] } : VrfStatus).localAs = 77 :=
  ⟨by decide,
   (c6_localAs_not_uniform envAllOk srv0).1 creqA vrfCreatedA srvA
     [.netlinkCreateVrf, .frrCreateVrf]
     { localAs := 4, routingTable := 1000, rmac := macA } macA rfl
     (by decide) (by decide) (by decide),
   by decide,
   (c6_localAs_not_uniform envAllOk srvA).2.2.2 { name := "vrfs/a" } vrfGetA srvA
     [.linkByName "a"] { localAs := 77, routingTable := 0, rmac := [] }
     (by decide) (by decide)⟩

/-- **C4**: for Delete on a name present in the store, any backend failure
(netlink, or FRR for VRF) is returned as the operation's error with the
whole server state unchanged; the entry is removed exactly when every
backend call succeeds, in which case the operation returns the empty
acknowledgment. -/
theorem c4_delete_strict_success (env : Env) (s : Server)
    (dreq : DeleteVrfRequest) (breq : DeleteLogicalBridgeRequest)
    (vobj : Vrf) (bobj : LogicalBridge)
    (hv : env.validateDeleteVrf dreq = none)
    (hb : env.validateDeleteLB breq = none)
    (hex : vrfLookup s.vrfs dreq.name = some vobj)
    (hbx : lbLookup s.bridges breq.name = some bobj) :
    (∀ e, env.netlinkDeleteVrfRes = some e →
        DeleteVrf env s dreq = (.error e, s, [.netlinkDeleteVrf])) ∧
    (∀ e, env.netlinkDeleteVrfRes = none → env.frrDeleteVrfRes = some e →
        DeleteVrf env s dreq = (.error e, s, [.netlinkDeleteVrf, .frrDeleteVrf])) ∧
    (env.netlinkDeleteVrfRes = none → env.frrDeleteVrfRes = none →
        DeleteVrf env s dreq =
          (.ok (), { s with vrfs := vrfDelete s.vrfs dreq.name },
            [.netlinkDeleteVrf, .frrDeleteVrf]) ∧
        vrfLookup (vrfDelete s.vrfs dreq.name) dreq.name = none) ∧
    (∀ e, env.netlinkDeleteLBRes = some e →
        DeleteLogicalBridge env s breq = (.error e, s, [.netlinkDeleteLogicalBridge])) ∧
    (env.netlinkDeleteLBRes = none →
        DeleteLogicalBridge env s breq =
          (.ok (), { s with bridges := lbDelete s.bridges breq.name },
            [.netlinkDeleteLogicalBridge]) ∧
        lbLookup (lbDelete s.bridges breq.name) breq.name = none) := by
  have hnv : vobj.name = dreq.name := vrfLookup_name hex
  have hnb : bobj.name = breq.name := lbLookup_name hbx
  refine ⟨?_, ?_, ?_, ?_, ?_⟩
  · intro e he
    simp [DeleteVrf, hv, hex, he]
  · intro e hn he
    simp [DeleteVrf, hv, hex, hn, he]
  · intro hn hf
    exact ⟨by simp [DeleteVrf, hv, hex, hn, hf, hnv],
           vrfLookup_delete_self s.vrfs dreq.name⟩
  · intro e he
    simp [DeleteLogicalBridge, hb, hbx, he]
  · intro hn
    exact ⟨by simp [DeleteLogicalBridge, hb, hbx, hn, hnb],
           lbLookup_delete_self s.bridges breq.name⟩

/-- A delete request for the stored `vrfW`. -/
def dreqW : DeleteVrfRequest := { name := "vrfs/a", allowMissing := false }

/-- A delete request for the stored `lbW`. -/
def breqDW : DeleteLogicalBridgeRequest := { name := "bridges/b", allowMissing := false }

/-- Witness for C4 at a concrete run: both deletes succeed and remove the
stored entries. -/
theorem c4_witness :
    envAllOk.validateDeleteVrf dreqW = none ∧
    vrfLookup srvW.vrfs dreqW.name = some vrfW ∧
    DeleteVrf envAllOk srvW dreqW =
      (.ok (), { srvW with vrfs := vrfDelete srvW.vrfs dreqW.name },
        [.netlinkDeleteVrf, .frrDeleteVrf]) ∧
    vrfLookup (vrfDelete srvW.vrfs dreqW.name) dreqW.name = none ∧
    DeleteLogicalBridge envAllOk srvW breqDW =
      (.ok (), { srvW with bridges := lbDelete srvW.bridges breqDW.name },
        [.netlinkDeleteLogicalBridge]) ∧
    lbLookup (lbDelete srvW.bridges breqDW.name) breqDW.name = none :=
  ⟨rfl, by decide,
   ((c4_delete_strict_success envAllOk srvW dreqW breqDW vrfW lbW rfl rfl
       (by decide) (by decide)).2.2.1 rfl rfl).1,
   ((c4_delete_strict_success envAllOk srvW dreqW breqDW vrfW lbW rfl rfl
       (by decide) (by decide)).2.2.1 rfl rfl).2,
   ((c4_delete_strict_success envAllOk srvW dreqW breqDW vrfW lbW rfl rfl
       (by decide) (by decide)).2.2.2.2 rfl).1,
   ((c4_delete_strict_success envAllOk srvW dreqW breqDW vrfW lbW rfl rfl
       (by decide) (by decide)).2.2.2.2 rfl).2⟩

/-- **C7**: for Delete on a name absent from the store, the call succeeds
with the empty acknowledgment, no backend calls and no state change when
the allow-missing flag is set, and fails with `NotFound` (again with no
backend calls and no state change) when it is not. -/
theorem c7_delete_allow_missing (env : Env) (s : Server)
    (dreq : DeleteVrfRequest) (breq : DeleteLogicalBridgeRequest)
    (hv : env.validateDeleteVrf dreq = none)
    (hb : env.validateDeleteLB breq = none)
    (hmv : vrfLookup s.vrfs dreq.name = none)
    (hmb : lbLookup s.bridges breq.name = none) :
    (dreq.allowMissing = true → DeleteVrf env s dreq = (.ok (), s, [])) ∧
    (dreq.allowMissing = false →
        DeleteVrf env s dreq =
          (.error ⟨.NotFound, "unable to find key " ++ dreq.name⟩, s, [])) ∧
    (breq.allowMissing = true → DeleteLogicalBridge env s breq = (.ok (), s, [])) ∧
    (breq.allowMissing = false →
        DeleteLogicalBridge env s breq =
          (.error ⟨.NotFound, "unable to find key " ++ breq.name⟩, s, [])) := by
  refine ⟨?_, ?_, ?_, ?_⟩ <;> intro hflag
  · simp [DeleteVrf, hv, hmv, hflag]
  · simp [DeleteVrf, hv, hmv, hflag]
  · simp [DeleteLogicalBridge, hb, hmb, hflag]
  · simp [DeleteLogicalBridge, hb, hmb, hflag]

/-- A delete request for an absent VRF with allow-missing set. -/
def dreqM : DeleteVrfRequest := { name := "vrfs/none", allowMissing := true }

/-- A delete request for an absent LogicalBridge without allow-missing. -/
def breqM : DeleteLogicalBridgeRequest := { name := "bridges/none", allowMissing := false }

/-- Witness for C7 at a concrete run: allow-missing delete succeeds
trivially, plain delete of a missing name returns `NotFound`. -/
theorem c7_witness :
    vrfLookup srvW.vrfs dreqM.name = none ∧
    lbLookup srvW.bridges breqM.name = none ∧
    DeleteVrf envAllOk srvW dreqM = (.ok (), srvW, []) ∧
    DeleteLogicalBridge envAllOk srvW breqM =
      (.error ⟨.NotFound, "unable to find key " ++ breqM.name⟩, srvW, []) :=
  ⟨by decide, by decide,
   (c7_delete_allow_missing envAllOk srvW dreqM breqM rfl rfl
      (by decide) (by decide)).1 rfl,
   (c7_delete_allow_missing envAllOk srvW dreqM breqM rfl rfl
      (by decide) (by decide)).2.2.2 rfl⟩

/-- **C8**: Update on a name present in the store fails with `NotFound`
and leaves the state unchanged when the live kernel link cannot be
resolved — for a VRF by the stored resource's short id (`path.Base`), for
a LogicalBridge with a set VNI by the derived interface name `"vni<N>"`. -/
theorem c8_update_requires_live_link (env : Env) (s : Server)
    (ureq : UpdateVrfRequest) (breq : UpdateLogicalBridgeRequest)
    (vrf : Vrf) (bridge : LogicalBridge) (n : Nat)
    (hv : env.validateUpdateVrf ureq = none)
    (hb : env.validateUpdateLB breq = none)
    (hex : vrfLookup s.vrfs ureq.vrf.name = some vrf)
    (hbx : lbLookup s.bridges breq.logicalBridge.name = some bridge)
    (hvni : bridge.spec.vni = some n)
    (hlv : env.linkFound (pathBase vrf.name) = false)
    (hlb : env.linkFound ("vni" ++ toString n) = false) :
    UpdateVrf env s ureq =
      (.error ⟨.NotFound, "unable to find key " ++ pathBase vrf.name⟩, s,
        [.linkByName (pathBase vrf.name)]) ∧
    UpdateLogicalBridge env s breq =
      (.error ⟨.NotFound, "unable to find key " ++ ("vni" ++ toString n)⟩, s,
        [.linkByName ("vni" ++ toString n)]) := by
  constructor
  · simp [UpdateVrf, hv, hex, hlv]
  · simp [UpdateLogicalBridge, hb, hbx, hvni, hlb]

/-- An update request for the stored `vrfW`. -/
def ureqW8 : UpdateVrfRequest :=
  { vrf := { name := "vrfs/a", spec := { vni := some 12 }, status := none } }

/-- An update request for the stored `lbW` (whose VNI is 7). -/
def breqW8 : UpdateLogicalBridgeRequest :=
  { logicalBridge := { name := "bridges/b", spec := { vlanId := 5, vni := some 7 },
                       status := none } }

/-- Witness for C8 at a concrete run with every kernel link missing:
both updates fail `NotFound` even though the store entries exist. -/
theorem c8_witness :
    vrfLookup srvW.vrfs ureqW8.vrf.name = some vrfW ∧
    lbLookup srvW.bridges breqW8.logicalBridge.name = some lbW ∧
    envNoLink.linkFound (pathBase vrfW.name) = false ∧
    UpdateVrf envNoLink srvW ureqW8 =
      (.error ⟨.NotFound, "unable to find key " ++ pathBase vrfW.name⟩, srvW,
        [.linkByName (pathBase vrfW.name)]) ∧
    UpdateLogicalBridge envNoLink srvW breqW8 =
      (.error ⟨.NotFound, "unable to find key " ++ ("vni" ++ toString 7)⟩, srvW,
        [.linkByName ("vni" ++ toString 7)]) :=
  ⟨by decide, by decide, rfl,
   (c8_update_requires_live_link envNoLink srvW ureqW8 breqW8 vrfW lbW 7 rfl rfl
      (by decide) (by decide) (by decide) rfl rfl).1,
   (c8_update_requires_live_link envNoLink srvW ureqW8 breqW8 vrfW lbW 7 rfl rfl
      (by decide) (by decide) (by decide) rfl rfl).2⟩

/-- **C9**: `validateCreateBridgePortRequest` fails with `InvalidArgument`
for every ACCESS request referencing more than one logical bridge, and for
ACCESS requests with at most one reference the cardinality check passes —
the outcome is exactly the downstream user-settable-id check. -/
theorem c9_access_cardinality (env : Env) (req : CreateBridgePortRequest)
    (hrf : env.requiredFieldsBP = none)
    (hacc : req.bridgePort.spec.ptype = .ACCESS) :
    (req.bridgePort.spec.logicalBridges.length > 1 →
        validateCreateBridgePortRequest env req =
          some ⟨.InvalidArgument,
            "ACCESS type must have single LogicalBridge and not (" ++
              toString req.bridgePort.spec.logicalBridges.length ++ ")"⟩) ∧
    (req.bridgePort.spec.logicalBridges.length ≤ 1 →
        validateCreateBridgePortRequest env req =
          (if req.bridgePortId != "" then env.validateUserSettable req.bridgePortId
           else none)) := by
  constructor
  · intro hlen
    simp only [validateCreateBridgePortRequest, hrf]
    rw [if_pos ⟨hacc, hlen⟩]
  · intro hlen
    simp only [validateCreateBridgePortRequest, hrf]
    rw [if_neg (fun hand => absurd hand.2 (Nat.not_lt.mpr hlen))]

/-- An ACCESS bridge-port request with two logical-bridge references. -/
def bpReq2 : CreateBridgePortRequest :=
  { bridgePortId := "p",
    bridgePort := { name := "",
                    spec := { ptype := .ACCESS,
                              logicalBridges := ["bridges/b1", "bridges/b2"] } } }

/-- An ACCESS bridge-port request with one logical-bridge reference. -/
def bpReq1 : CreateBridgePortRequest :=
  { bridgePortId := "p",
    bridgePort := { name := "",
                    spec := { ptype := .ACCESS, logicalBridges := ["bridges/b1"] } } }

/-- Witness for C9: two references are rejected with `InvalidArgument`,
one reference passes the cardinality check (the request validates). -/
theorem c9_witness :
    bpReq2.bridgePort.spec.ptype = .ACCESS ∧
    bpReq2.bridgePort.spec.logicalBridges.length > 1 ∧
    validateCreateBridgePortRequest envAllOk bpReq2 =
      some ⟨.InvalidArgument,
        "ACCESS type must have single LogicalBridge and not (" ++
          toString bpReq2.bridgePort.spec.logicalBridges.length ++ ")"⟩ ∧
    bpReq1.bridgePort.spec.logicalBridges.length ≤ 1 ∧
    validateCreateBridgePortRequest envAllOk bpReq1 =
      (if bpReq1.bridgePortId != "" then envAllOk.validateUserSettable bpReq1.bridgePortId
       else none) :=
  ⟨rfl, by decide,
   (c9_access_cardinality envAllOk bpReq2 rfl rfl).1 (by decide),
   by decide,
   (c9_access_cardinality envAllOk bpReq1 rfl rfl).2 (by decide)⟩

/-- **C5**: a List call whose pagination extraction yields (size, offset)
returns the slice `[offset, offset+size)` of the sorted (by resource name)
status-replaced store snapshot — the sorted list being a sorted
permutation of that snapshot; when elements remain beyond the slice, the
minted non-empty token is returned and recorded in the pagination table as
mapping to `offset+size`, otherwise the returned token is empty and the
state is unchanged. -/
theorem c5_list_sorted_slice_pagination (env : Env) (s : Server)
    (vreq : ListVrfsRequest) (breq : ListLogicalBridgesRequest)
    (vsize voffset bsize boffset : Nat)
    (hrf : env.requiredFieldsListVrfs = none)
    (hrb : env.requiredFieldsListLBs = none)
    (hpv : extractPagination vreq.pageSize vreq.pageToken s.pagination = .ok (vsize, voffset))
    (hpb : extractPagination breq.pageSize breq.pageToken s.pagination = .ok (bsize, boffset))
    (htok : env.newToken ≠ "") :
    (∀ resp s1, ListVrfs env s vreq = (.ok resp, s1) →
        List.Sorted vrfNameLe (sortVrfs (vrfListSnapshot s.vrfs)) ∧
        (sortVrfs (vrfListSnapshot s.vrfs)).Perm (vrfListSnapshot s.vrfs) ∧
        resp.vrfs = ((sortVrfs (vrfListSnapshot s.vrfs)).drop voffset).take vsize ∧
        (voffset + vsize < (sortVrfs (vrfListSnapshot s.vrfs)).length →
            resp.nextPageToken = env.newToken ∧ resp.nextPageToken ≠ "" ∧
            pagLookup s1.pagination resp.nextPageToken = some (voffset + vsize)) ∧
        (¬ voffset + vsize < (sortVrfs (vrfListSnapshot s.vrfs)).length →
            resp.nextPageToken = "" ∧ s1 = s)) ∧
    (∀ resp s1, ListLogicalBridges env s breq = (.ok resp, s1) →
        List.Sorted lbNameLe (sortLogicalBridges (lbListSnapshot s.bridges)) ∧
        (sortLogicalBridges (lbListSnapshot s.bridges)).Perm (lbListSnapshot s.bridges) ∧
        resp.logicalBridges =
          ((sortLogicalBridges (lbListSnapshot s.bridges)).drop boffset).take bsize ∧
        (boffset + bsize < (sortLogicalBridges (lbListSnapshot s.bridges)).length →
            resp.nextPageToken = env.newToken ∧ resp.nextPageToken ≠ "" ∧
            pagLookup s1.pagination resp.nextPageToken = some (boffset + bsize)) ∧
        (¬ boffset + bsize < (sortLogicalBridges (lbListSnapshot s.bridges)).length →
            resp.nextPageToken = "" ∧ s1 = s)) := by
  constructor
  · intro resp s1 h
    obtain ⟨hslice, hmore, hnomore⟩ := listVrfs_ok env s vreq vsize voffset resp s1 hrf hpv h
    refine ⟨List.sorted_insertionSort vrfNameLe _, List.perm_insertionSort vrfNameLe _,
            hslice, ?_, hnomore⟩
    intro hlt
    obtain ⟨htok1, hs1⟩ := hmore hlt
    subst hs1
    refine ⟨htok1, by rw [htok1]; exact htok, ?_⟩
    rw [htok1]
    simp [pagLookup, List.find?]
  · intro resp s1 h
    obtain ⟨hslice, hmore, hnomore⟩ := listLBs_ok env s breq bsize boffset resp s1 hrb hpb h
    refine ⟨List.sorted_insertionSort lbNameLe _, List.perm_insertionSort lbNameLe _,
            hslice, ?_, hnomore⟩
    intro hlt
    obtain ⟨htok1, hs1⟩ := hmore hlt
    subst hs1
    refine ⟨htok1, by rw [htok1]; exact htok, ?_⟩
    rw [htok1]
    simp [pagLookup, List.find?]

/-- A stored VRF with a non-default status (to show List replaces it). -/
def vrfOdd : Vrf :=
  { name := "vrfs/q", spec := { vni := some 3 },
    status := some { localAs := 9, routingTable := 7, rmac := [1, 2] } }

/-- A stored LogicalBridge with a nil status. -/
def lbOdd : LogicalBridge :=
  { name := "bridges/q", spec := { vlanId := 2, vni := none }, status := none }

/-- A server holding exactly `vrfOdd` and `lbOdd`. -/
def srvOdd : Server := { vrfs := [vrfOdd], bridges := [lbOdd], pagination := [] }

/-- A VRF list request with page size 2 and no token. -/
def lreq2 : ListVrfsRequest := { pageSize := 2, pageToken := "" }

/-- A LogicalBridge list request with page size 2 and no token. -/
def breq2 : ListLogicalBridgesRequest := { pageSize := 2, pageToken := "" }

/-- The response `ListVrfs envAllOk srvOdd lreq2` produces. -/
def respV : ListVrfsResponse :=
  { vrfs := [{ vrfOdd with status := some vrfStatusLocalAs4 }], nextPageToken := "" }

/-- The response `ListLogicalBridges envAllOk srvOdd breq2` produces. -/
def respB : ListLogicalBridgesResponse :=
  { logicalBridges := [{ lbOdd with status := some lbStatusUp }], nextPageToken := "" }

/-- Witness for C5 at a concrete run: one stored object, page size 2 —
the page is the whole sorted snapshot and the token is empty. -/
theorem c5_witness :
    extractPagination lreq2.pageSize lreq2.pageToken srvOdd.pagination = .ok (2, 0) ∧
    extractPagination breq2.pageSize breq2.pageToken srvOdd.pagination = .ok (2, 0) ∧
    envAllOk.newToken ≠ "" ∧
    ListVrfs envAllOk srvOdd lreq2 = (.ok respV, srvOdd) ∧
    respV.vrfs = ((sortVrfs (vrfListSnapshot srvOdd.vrfs)).drop 0).take 2 ∧
    respV.nextPageToken = "" ∧
    List.Sorted vrfNameLe (sortVrfs (vrfListSnapshot srvOdd.vrfs)) ∧
    ListLogicalBridges envAllOk srvOdd breq2 = (.ok respB, srvOdd) ∧
    respB.logicalBridges = ((sortLogicalBridges (lbListSnapshot srvOdd.bridges)).drop 0).take 2 ∧
    respB.nextPageToken = "" :=
  ⟨by decide, by decide, by decide, by decide,
   ((c5_list_sorted_slice_pagination envAllOk srvOdd lreq2 breq2 2 0 2 0 rfl rfl
       (by decide) (by decide) (by decide)).1 respV srvOdd (by decide)).2.2.1,
   (((c5_list_sorted_slice_pagination envAllOk srvOdd lreq2 breq2 2 0 2 0 rfl rfl
       (by decide) (by decide) (by decide)).1 respV srvOdd (by decide)).2.2.2.2
       (by decide)).1,
   ((c5_list_sorted_slice_pagination envAllOk srvOdd lreq2 breq2 2 0 2 0 rfl rfl
       (by decide) (by decide) (by decide)).1 respV srvOdd (by decide)).1,
   by decide,
   ((c5_list_sorted_slice_pagination envAllOk srvOdd lreq2 breq2 2 0 2 0 rfl rfl
       (by decide) (by decide) (by decide)).2 respB srvOdd (by decide)).2.2.1,
   (((c5_list_sorted_slice_pagination envAllOk srvOdd lreq2 breq2 2 0 2 0 rfl rfl
       (by decide) (by decide) (by decide)).2 respB srvOdd (by decide)).2.2.2.2
       (by decide)).1⟩

/-- **C10**: every item a List call returns is a clone of a stored object
whose status has been replaced by the fixed value (for VRFs a status
containing only `localAs = 4` — stored routingTable and rmac do not
appear; for bridges `operStatus = UP`), regardless of the stored status;
and List does not modify the resource stores. -/
theorem c10_list_status_replacement (env : Env) (s : Server)
    (vreq : ListVrfsRequest) (breq : ListLogicalBridgesRequest) :
    (∀ resp s1, ListVrfs env s vreq = (.ok resp, s1) →
        (∀ v ∈ resp.vrfs, v.status = some vrfStatusLocalAs4 ∧
            ∃ w ∈ s.vrfs, v = { w with status := some vrfStatusLocalAs4 }) ∧
        s1.vrfs = s.vrfs ∧ s1.bridges = s.bridges) ∧
    (∀ resp s1, ListLogicalBridges env s breq = (.ok resp, s1) →
        (∀ b ∈ resp.logicalBridges, b.status = some lbStatusUp ∧
            ∃ w ∈ s.bridges, b = { w with status := some lbStatusUp }) ∧
        s1.vrfs = s.vrfs ∧ s1.bridges = s.bridges) := by
  constructor
  · intro resp s1 h
    obtain ⟨hmem, h2, h3⟩ := listVrfs_ok_members env s vreq resp s1 h
    refine ⟨fun v hv => ?_, h2, h3⟩
    obtain ⟨w, hw, hveq⟩ := hmem v hv
    subst hveq
    exact ⟨rfl, w, hw, rfl⟩
  · intro resp s1 h
    obtain ⟨hmem, h2, h3⟩ := listLBs_ok_members env s breq resp s1 h
    refine ⟨fun b hb => ?_, h2, h3⟩
    obtain ⟨w, hw, hbeq⟩ := hmem b hb
    subst hbeq
    exact ⟨rfl, w, hw, rfl⟩

/-- Witness for C10 at a concrete run: the stored odd status (localAs 9,
routingTable 7, rmac [1,2]) does not appear in the listed item, whose
status is the fixed one, and the stores are untouched. -/
theorem c10_witness :
    ListVrfs envAllOk srvOdd lreq2 = (.ok respV, srvOdd) ∧
    vrfOdd.status = some { localAs := 9, routingTable := 7, rmac := [1, 2] } ∧
    ({ vrfOdd with status := some vrfStatusLocalAs4 } : Vrf).status = some vrfStatusLocalAs4 ∧
    ListLogicalBridges envAllOk srvOdd breq2 = (.ok respB, srvOdd) ∧
    ({ lbOdd with status := some lbStatusUp } : LogicalBridge).status = some lbStatusUp ∧
    srvOdd.vrfs = srvOdd.vrfs :=
  ⟨by decide, rfl,
   (((c10_list_status_replacement envAllOk srvOdd lreq2 breq2).1 respV srvOdd
       (by decide)).1 { vrfOdd with status := some vrfStatusLocalAs4 } (by decide)).1,
   by decide,
   (((c10_list_status_replacement envAllOk srvOdd lreq2 breq2).2 respB srvOdd
       (by decide)).1 { lbOdd with status := some lbStatusUp } (by decide)).1,
   (((c10_list_status_replacement envAllOk srvOdd lreq2 breq2).1 respV srvOdd
       (by decide)).2.1 : srvOdd.vrfs = srvOdd.vrfs)⟩
